import Mathlib

/-!
Shallow embedding of the drf-tutorial snippet-sharing API.

The repository is a staged Django REST Framework tutorial.  We embed the
stage-4/5 configuration (`snippets/views.py`, `snippets/permissions.py`,
`snippets/serializers.py`, `snippets/urls.py` of
`4-authentication-and-permissions`, plus the `SnippetHighlight` view of
`5-relationships-and-hyperlinked-apis`): the persisted `Snippet` records,
the serializer's validation and read-only-field behaviour, the permission
predicates, and the framework dispatch of each configured endpoint
(view-level permission check, handler lookup, object lookup, object-level
permission check, validation, and the resulting status codes).

The Django model module (`snippets/models.py`) is not part of the sources;
its behaviour (field defaults, the `created` ordering key, highlight on
save, cascade delete with the owner) is modelled from the spec where noted.
-/

namespace DrfTutorial

/-- HTTP methods that reach the configured endpoints. -/
inductive Method
  | GET | HEAD | OPTIONS | POST | PUT | PATCH | DELETE
deriving DecidableEq, Repr

/-- `rest_framework.permissions.SAFE_METHODS = ('GET', 'HEAD', 'OPTIONS')`. -/
def SAFE_METHODS : List Method := [.GET, .HEAD, .OPTIONS]

/-- Modelled from the spec: the persisted Snippet record — identifier
(auto-assigned, unique), title (text, default empty), code (text, required),
linenos (boolean, default false), language (default "python"), style
(default "friendly"), created (timestamp auto-set at creation), owner
(reference to a User), and the derived highlighted field (pre-rendered HTML
produced from code/language/style at save time).  `models.py` is absent from
the sources; users are identified by their primary key, `created` by a
logical clock, and an anonymous requester by `none`. -/
structure Snippet where
  id : Nat
  title : String
  code : String
  linenos : Bool
  language : String
  style : String
  created : Nat
  owner : Option Nat
  highlighted : String
deriving DecidableEq, Repr

/-- Modelled from the spec: the pre-rendered HTML produced from the code,
language and style fields by the external syntax-highlighting library at
save time.  The library call itself is out of scope; it is embedded as an
arbitrary but fixed total function of exactly those three fields. -/
def pygmentsHighlight (code language style : String) : String :=
  "<html><!-- style: " ++ style ++ " lexer: " ++ language ++ " --><body><pre>"
    ++ code ++ "</pre></body></html>"

/-- Modelled from the spec: `Snippet.save` recomputes the derived
`highlighted` field from code/language/style before persisting. -/
def snippetSave (s : Snippet) : Snippet :=
  { s with highlighted := pygmentsHighlight s.code s.language s.style }

/-- A request body as seen by `SnippetSerializer`: each writable field may
be present or absent.  The `owner` key models a client attempting to supply
the read-only `owner` field declared in `serializers.py`. -/
structure Payload where
  title : Option String := none
  code : Option String := none
  linenos : Option Bool := none
  language : Option String := none
  style : Option String := none
  owner : Option Nat := none
deriving DecidableEq, Repr

/-- The persisted state: snippet records, user records (by primary key),
the auto-increment id counter and the creation clock. -/
structure Store where
  snippets : List Snippet
  users : List Nat
  nextId : Nat
  clock : Nat
deriving DecidableEq, Repr

def emptyStore : Store := ⟨[], [], 1, 0⟩

/-- `Snippet.objects.all()` — modelled from the spec: snippets are returned
ordered by creation time ascending (`created` is the default ordering key
of the model's Meta options). -/
def objectsAll (store : Store) : List Snippet :=
  store.snippets.insertionSort (fun a b => a.created ≤ b.created)

/-- `SnippetSerializer.is_valid()`: the `Meta.fields` are id, title, code,
linenos, language, style, owner; `id` is read-only, `owner` is declared
`ReadOnlyField`, and of the writable fields only `code` is required (title,
linenos, language and style carry model defaults, making their serializer
fields optional).  A body is valid exactly when `code` is present. -/
def is_valid (p : Payload) : Bool := p.code.isSome

/-- Building the model instance from the validated data plus the extra
`owner` argument passed by `perform_create` (`serializer.save(owner=...)`):
fields absent from the body fall back to the model defaults.  The `owner`
key of the body is dropped — `owner` is a read-only serializer field. -/
def snippetFromPayload (p : Payload) (owner : Option Nat) (id created : Nat) : Snippet :=
  { id := id
    title := p.title.getD ""
    code := p.code.getD ""
    linenos := p.linenos.getD false
    language := p.language.getD "python"
    style := p.style.getD "friendly"
    created := created
    owner := owner
    highlighted := "" }

/-- `Snippet.objects.create(...)` through the serializer: instantiate from
the validated data and save (which derives `highlighted`); the new record
gets the next auto-increment id and the current creation timestamp. -/
def snippetCreate (store : Store) (p : Payload) (owner : Option Nat) :
    Snippet × Store :=
  let s := snippetSave (snippetFromPayload p owner store.nextId store.clock)
  (s, { store with
          snippets := store.snippets ++ [s]
          nextId := store.nextId + 1
          clock := store.clock + 1 })

/-- `serializer.update(instance, validated_data)`: each validated field
overwrites the stored one, absent fields are left unchanged (`owner`, `id`
and `created` are never part of the validated data), then the instance is
saved, re-deriving `highlighted`. -/
def snippetUpdate (s : Snippet) (p : Payload) : Snippet :=
  snippetSave
    { s with
        title := p.title.getD s.title
        code := p.code.getD s.code
        linenos := p.linenos.getD s.linenos
        language := p.language.getD s.language
        style := p.style.getD s.style }

/-- `Snippet.objects.get(pk=pk)`: the record with the given primary key. -/
def getSnippet (store : Store) (pk : Nat) : Option Snippet :=
  store.snippets.find? (fun s => s.id == pk)

/-- Python equality `obj.owner == request.user`: Django model equality holds
only between two persisted `User` rows with the same primary key; a null
owner equals no user, and `AnonymousUser` (here `none`) equals no owner. -/
def ownerEqUser (owner requester : Option Nat) : Bool :=
  match owner, requester with
  | some o, some u => o == u
  | _, _ => false

namespace IsOwnerOrReadOnly

/-- `IsOwnerOrReadOnly.has_object_permission` (permissions.py): allow any
safe method; otherwise allow only the owner of the snippet. -/
def has_object_permission (method : Method) (user : Option Nat)
    (obj : Snippet) : Bool :=
  if method ∈ SAFE_METHODS then
    true
  else
    ownerEqUser obj.owner user

end IsOwnerOrReadOnly

namespace IsAuthenticatedOrReadOnly

/-- `rest_framework.permissions.IsAuthenticatedOrReadOnly.has_permission`:
`request.method in SAFE_METHODS or (request.user and
request.user.is_authenticated)`. -/
def has_permission (method : Method) (user : Option Nat) : Bool :=
  decide (method ∈ SAFE_METHODS) || user.isSome

end IsAuthenticatedOrReadOnly

/-- The routed endpoints of urls.py (stage 4, plus the stage-5
`snippet-highlight` route). -/
inductive Target
  | snippetList
  | snippetDetail (pk : Nat)
  | snippetHighlight (pk : Nat)
  | userList
  | userDetail (pk : Nat)
deriving DecidableEq, Repr

/-- An HTTP request: method, routed target, authenticated user (`none` for
an anonymous client) and parsed body. -/
structure Request where
  method : Method
  target : Target
  user : Option Nat
  payload : Payload := {}
deriving DecidableEq, Repr

/-- Rendered response bodies that the claims inspect. -/
inductive Body
  | empty
  | snippetJson (s : Snippet)
  | snippetListJson (l : List Snippet)
  | userJson (pk : Nat)
  | userListJson (l : List Nat)
  | htmlText (h : String)
deriving DecidableEq, Repr

structure Response where
  status : Nat
  body : Body
deriving DecidableEq, Repr

/-- Handlers bound on `SnippetList` (`ListCreateAPIView`): get, post, plus
head (mapped to get) and the default options. -/
def snippetListAllowed : List Method := [.GET, .HEAD, .OPTIONS, .POST]

/-- Handlers bound on `SnippetDetail` (`RetrieveUpdateDestroyAPIView`):
get, put, patch, delete, plus head and options. -/
def snippetDetailAllowed : List Method :=
  [.GET, .HEAD, .OPTIONS, .PUT, .PATCH, .DELETE]

/-- Handlers bound on the read-only views (`UserList`, `UserDetail`,
`SnippetHighlight`): get, head, options only. -/
def readOnlyAllowed : List Method := [.GET, .HEAD, .OPTIONS]

/-- `SnippetDetail` handler bodies after `get_object` has succeeded and the
object-level permission has been granted: retrieve, update (full and
partial) and destroy, with the framework's default status codes. -/
def snippetDetailHandler (m : Method) (pk : Nat) (p : Payload) (s : Snippet)
    (store : Store) : Response × Store :=
  match m with
  | .PUT =>
    if is_valid p then
      let s' := snippetUpdate s p
      (⟨200, .snippetJson s'⟩,
        { store with
            snippets := store.snippets.map (fun t => if t.id == pk then s' else t) })
    else
      (⟨400, .empty⟩, store)
  | .PATCH =>
    let s' := snippetUpdate s p
    (⟨200, .snippetJson s'⟩,
      { store with
          snippets := store.snippets.map (fun t => if t.id == pk then s' else t) })
  | .DELETE =>
    (⟨204, .empty⟩,
      { store with snippets := store.snippets.filter (fun t => t.id != pk) })
  | _ =>
    (⟨200, .snippetJson s⟩, store)

/-- Framework dispatch of one request against the routed views, following
`APIView.dispatch`: `initial()` runs the view-level permission checks
before the handler is resolved (so a permission denial answers before a
405); detail handlers then call `get_object`, which raises 404 for a
missing record and runs the object-level permission checks; update and
create handlers then validate the body.  An unauthenticated denial renders
as 403 (session authentication supplies no `WWW-Authenticate` challenge).
`UserList`/`UserDetail`/`SnippetHighlight` declare no permission classes
(the default allows any request). -/
def dispatch (req : Request) (store : Store) : Response × Store :=
  match req.target with
  | .snippetList =>
    if !IsAuthenticatedOrReadOnly.has_permission req.method req.user then
      (⟨403, .empty⟩, store)
    else if req.method ∈ snippetListAllowed then
      match req.method with
      | .OPTIONS => (⟨200, .empty⟩, store)
      | .POST =>
        if is_valid req.payload then
          let (s, store') := snippetCreate store req.payload req.user
          (⟨201, .snippetJson s⟩, store')
        else
          (⟨400, .empty⟩, store)
      | _ => (⟨200, .snippetListJson (objectsAll store)⟩, store)
    else
      (⟨405, .empty⟩, store)
  | .snippetDetail pk =>
    if !IsAuthenticatedOrReadOnly.has_permission req.method req.user then
      (⟨403, .empty⟩, store)
    else if req.method ∈ snippetDetailAllowed then
      if req.method = .OPTIONS then
        (⟨200, .empty⟩, store)
      else
        match getSnippet store pk with
        | none => (⟨404, .empty⟩, store)
        | some s =>
          if !IsOwnerOrReadOnly.has_object_permission req.method req.user s then
            (⟨403, .empty⟩, store)
          else
            snippetDetailHandler req.method pk req.payload s store
    else
      (⟨405, .empty⟩, store)
  | .snippetHighlight pk =>
    if req.method ∈ readOnlyAllowed then
      if req.method = .OPTIONS then
        (⟨200, .empty⟩, store)
      else
        match getSnippet store pk with
        | none => (⟨404, .empty⟩, store)
        | some s => (⟨200, .htmlText s.highlighted⟩, store)
    else
      (⟨405, .empty⟩, store)
  | .userList =>
    if req.method ∈ readOnlyAllowed then
      if req.method = .OPTIONS then
        (⟨200, .empty⟩, store)
      else
        (⟨200, .userListJson store.users⟩, store)
    else
      (⟨405, .empty⟩, store)
  | .userDetail pk =>
    if req.method ∈ readOnlyAllowed then
      if req.method = .OPTIONS then
        (⟨200, .empty⟩, store)
      else if pk ∈ store.users then
        (⟨200, .userJson pk⟩, store)
      else
        (⟨404, .empty⟩, store)
    else
      (⟨405, .empty⟩, store)

/-- Modelled from the spec: deleting a user cascade-deletes the snippets it
owns (the owner foreign key is declared with cascade deletion). -/
def deleteUser (uid : Nat) (store : Store) : Store :=
  { store with
      users := store.users.filter (fun u => u != uid)
      snippets := store.snippets.filter (fun s => s.owner != some uid) }

/-- `User.objects.create_user(...)` at the level the claims need: register
a fresh user id. -/
def createUser (uid : Nat) (store : Store) : Store :=
  { store with users := store.users ++ [uid] }

/-- One state-changing operation of the API surface, for reasoning about
arbitrary interaction histories. -/
inductive Op
  | createSnippet (p : Payload) (user : Nat)
  | updateSnippet (pk : Nat) (p : Payload) (user : Nat)
  | deleteSnippet (pk : Nat) (user : Nat)
  | addUser (uid : Nat)
  | removeUser (uid : Nat)
deriving Repr

/-- Apply one operation to the store (mutations go through `dispatch`, so
they are subject to the same validation and permission checks as any HTTP
client). -/
def applyOp (store : Store) : Op → Store
  | .createSnippet p u => (dispatch ⟨.POST, .snippetList, some u, p⟩ store).2
  | .updateSnippet pk p u => (dispatch ⟨.PUT, .snippetDetail pk, some u, p⟩ store).2
  | .deleteSnippet pk u => (dispatch ⟨.DELETE, .snippetDetail pk, some u, {}⟩ store).2
  | .addUser uid => createUser uid store
  | .removeUser uid => deleteUser uid store

/-- Apply a whole interaction history, oldest operation first. -/
def applyOps (ops : List Op) (store : Store) : Store :=
  ops.foldl applyOp store

/-- A concrete store mirroring the test fixtures: users 1 and 2, a snippet
owned by each (`test_views.py` `setUp`). -/
def sampleStore : Store :=
  applyOps
    [.addUser 1, .addUser 2,
     .createSnippet { code := some "first" } 1,
     .createSnippet { code := some "second" } 2]
    emptyStore

/-! ## Supporting lemmas -/

lemma objectsAll_sorted (store : Store) :
    List.Pairwise (fun a b : Snippet => a.created ≤ b.created)
      (objectsAll store) := by
  haveI : IsTotal Snippet (fun a b => a.created ≤ b.created) :=
    ⟨fun a b => Nat.le_total _ _⟩
  haveI : IsTrans Snippet (fun a b => a.created ≤ b.created) :=
    ⟨fun _ _ _ => Nat.le_trans⟩
  exact List.sorted_insertionSort _ _

/-- Every snippet present after one operation was either already present
or is the result of a `snippetSave` (create and update both go through
`save`, which re-derives `highlighted`). -/
lemma applyOp_snippets_mem (store : Store) (op : Op) (s : Snippet)
    (hs : s ∈ (applyOp store op).snippets) :
    s ∈ store.snippets ∨ ∃ t, s = snippetSave t := by
  cases op with
  | createSnippet p u =>
    by_cases hv : is_valid p <;>
      simp [applyOp, dispatch, hv, IsAuthenticatedOrReadOnly.has_permission,
        SAFE_METHODS, snippetListAllowed, snippetCreate] at hs
    · rcases hs with hs | hs
      · exact Or.inl hs
      · exact Or.inr ⟨_, hs⟩
    · exact Or.inl hs
  | updateSnippet pk p u =>
    cases hg : getSnippet store pk with
    | none =>
      simp [applyOp, dispatch, hg, IsAuthenticatedOrReadOnly.has_permission,
        SAFE_METHODS, snippetDetailAllowed] at hs
      exact Or.inl hs
    | some s0 =>
      by_cases hp : IsOwnerOrReadOnly.has_object_permission .PUT (some u) s0
      · by_cases hv : is_valid p
        · simp [applyOp, dispatch, hg, hp, hv, IsAuthenticatedOrReadOnly.has_permission,
            SAFE_METHODS, snippetDetailAllowed, snippetDetailHandler] at hs
          rcases hs with ⟨t, ht, heq⟩
          by_cases hid : t.id = pk
          · rw [if_pos hid] at heq
            exact Or.inr ⟨_, heq.symm⟩
          · rw [if_neg hid] at heq
            exact Or.inl (heq ▸ ht)
        · simp [applyOp, dispatch, hg, hp, hv, IsAuthenticatedOrReadOnly.has_permission,
            SAFE_METHODS, snippetDetailAllowed, snippetDetailHandler] at hs
          exact Or.inl hs
      · simp [applyOp, dispatch, hg, hp, IsAuthenticatedOrReadOnly.has_permission,
          SAFE_METHODS, snippetDetailAllowed] at hs
        exact Or.inl hs
  | deleteSnippet pk u =>
    cases hg : getSnippet store pk with
    | none =>
      simp [applyOp, dispatch, hg, IsAuthenticatedOrReadOnly.has_permission,
        SAFE_METHODS, snippetDetailAllowed] at hs
      exact Or.inl hs
    | some s0 =>
      by_cases hp : IsOwnerOrReadOnly.has_object_permission .DELETE (some u) s0 <;>
        simp [applyOp, dispatch, hg, hp, IsAuthenticatedOrReadOnly.has_permission,
          SAFE_METHODS, snippetDetailAllowed, snippetDetailHandler] at hs
      · exact Or.inl hs.1
      · exact Or.inl hs
  | addUser uid =>
    exact Or.inl hs
  | removeUser uid =>
    simp only [applyOp, deleteUser, List.mem_filter] at hs
    exact Or.inl hs.1

/-- The derived-highlight invariant is preserved by any interaction
history. -/
lemma highlight_inv_applyOps (ops : List Op) (store : Store)
    (h : ∀ s ∈ store.snippets,
      s.highlighted = pygmentsHighlight s.code s.language s.style) :
    ∀ s ∈ (applyOps ops store).snippets,
      s.highlighted = pygmentsHighlight s.code s.language s.style := by
  induction ops generalizing store with
  | nil => exact h
  | cons op ops ih =>
    intro s hs
    refine ih (applyOp store op) ?_ s hs
    intro t ht
    rcases applyOp_snippets_mem store op t ht with h1 | ⟨t0, rfl⟩
    · exact h t h1
    · rfl

/-- The first snippet of `sampleStore` (id 1, owned by user 1). -/
def sampleSnippet1 : Snippet :=
  ⟨1, "", "first", false, "python", "friendly", 0, some 1,
    pygmentsHighlight "first" "python" "friendly"⟩

/-- The second snippet of `sampleStore` (id 2, owned by user 2). -/
def sampleSnippet2 : Snippet :=
  ⟨2, "", "second", false, "python", "friendly", 1, some 2,
    pygmentsHighlight "second" "python" "friendly"⟩

/-! ## Claims -/

/-- Claim C1: for every request on an existing Snippet, the object-level
permission check returns true iff the method is safe (GET, HEAD, OPTIONS)
or the requesting user equals the snippet's stored owner; consequently a
mutating request (PUT, PATCH, DELETE) on a snippet by anyone other than the
owner answers 403, while a GET on an existing snippet answers 200 for any
client. -/
theorem C1_owner_or_read_only_permission :
    (∀ (m : Method) (user : Option Nat) (obj : Snippet),
        IsOwnerOrReadOnly.has_object_permission m user obj = true ↔
          m ∈ SAFE_METHODS ∨ ∃ u, user = some u ∧ obj.owner = some u) ∧
    (∀ (store : Store) (pk : Nat) (user : Option Nat) (p : Payload)
        (m : Method) (s : Snippet),
        getSnippet store pk = some s →
        (m = .PUT ∨ m = .PATCH ∨ m = .DELETE) →
        s.owner ≠ user →
        (dispatch ⟨m, .snippetDetail pk, user, p⟩ store).1.status = 403) ∧
    (∀ (store : Store) (pk : Nat) (user : Option Nat) (s : Snippet),
        getSnippet store pk = some s →
        (dispatch ⟨.GET, .snippetDetail pk, user, {}⟩ store).1.status = 200) := by
  refine ⟨?_, ?_, ?_⟩
  · intro m user obj
    by_cases hm : m ∈ SAFE_METHODS
    · simp [IsOwnerOrReadOnly.has_object_permission, hm]
    · simp only [IsOwnerOrReadOnly.has_object_permission, if_neg hm]
      constructor
      · intro h
        cases ho : obj.owner with
        | none => rw [ho] at h; cases user <;> simp [ownerEqUser] at h
        | some o =>
          cases hu : user with
          | none => rw [ho, hu] at h; simp [ownerEqUser] at h
          | some u =>
            rw [ho, hu] at h
            simp only [ownerEqUser, beq_iff_eq] at h
            exact Or.inr ⟨u, rfl, by simp [ho, h]⟩
      · intro h
        rcases h with h | ⟨u, hu, ho⟩
        · exact absurd h hm
        · subst hu; rw [ho]; simp [ownerEqUser]
  · intro store pk user p m s hget hm hne
    have hsafe : m ∉ SAFE_METHODS := by rcases hm with rfl | rfl | rfl <;> decide
    cases user with
    | none =>
      have hperm : IsAuthenticatedOrReadOnly.has_permission m none = false := by
        simp [IsAuthenticatedOrReadOnly.has_permission, hsafe]
      simp [dispatch, hperm]
    | some u =>
      have hperm : IsAuthenticatedOrReadOnly.has_permission m (some u) = true := by
        simp [IsAuthenticatedOrReadOnly.has_permission]
      have hallowed : m ∈ snippetDetailAllowed := by
        rcases hm with rfl | rfl | rfl <;> decide
      have hopts : m ≠ .OPTIONS := by rcases hm with rfl | rfl | rfl <;> decide
      have hobj : IsOwnerOrReadOnly.has_object_permission m (some u) s = false := by
        simp only [IsOwnerOrReadOnly.has_object_permission, if_neg hsafe]
        cases ho : s.owner with
        | none => simp [ownerEqUser]
        | some o =>
          simp only [ownerEqUser, beq_eq_false_iff_ne, ne_eq]
          exact fun h => hne (by rw [ho, h])
      simp [dispatch, hperm, hallowed, hopts, hget, hobj]
  · intro store pk user s hget
    simp [dispatch, IsAuthenticatedOrReadOnly.has_permission, hget,
          IsOwnerOrReadOnly.has_object_permission, snippetDetailAllowed,
          SAFE_METHODS, snippetDetailHandler]

/-- Witness for C1: on the fixture store, user 2 deleting user 1's snippet
is answered 403, and user 2 reading it is answered 200. -/
theorem C1_owner_or_read_only_permission_witness :
    getSnippet sampleStore 1 = some sampleSnippet1 ∧
    sampleSnippet1.owner ≠ some 2 ∧
    (dispatch ⟨.DELETE, .snippetDetail 1, some 2, {}⟩ sampleStore).1.status = 403 ∧
    (dispatch ⟨.GET, .snippetDetail 1, some 2, {}⟩ sampleStore).1.status = 200 :=
  ⟨by decide, by decide,
   C1_owner_or_read_only_permission.2.1 sampleStore 1 (some 2) {} .DELETE
     sampleSnippet1 (by decide) (by decide) (by decide),
   C1_owner_or_read_only_permission.2.2 sampleStore 1 (some 2)
     sampleSnippet1 (by decide)⟩

/-- Claim C3: after any interaction history, the snippet list endpoint
returns the query result `objectsAll`, and that collection is ordered by
the creation timestamp ascending. -/
theorem C3_snippets_ordered_by_created :
    ∀ (ops : List Op) (user : Option Nat),
      (dispatch ⟨.GET, .snippetList, user, {}⟩ (applyOps ops emptyStore)).1 =
          ⟨200, .snippetListJson (objectsAll (applyOps ops emptyStore))⟩ ∧
      List.Pairwise (fun a b : Snippet => a.created ≤ b.created)
        (objectsAll (applyOps ops emptyStore)) := by
  intro ops user
  exact ⟨rfl, objectsAll_sorted _⟩

/-- Claim C6: deleting a user cascade-deletes its snippets — afterwards no
snippet owned by the deleted user remains in the store. -/
theorem C6_snippets_deleted_with_owner :
    ∀ (store : Store) (uid : Nat) (s : Snippet),
      s ∈ (deleteUser uid store).snippets → s.owner ≠ some uid := by
  intro store uid s hs
  simp only [deleteUser, List.mem_filter] at hs
  simpa using hs.2

/-- Witness for C6: deleting user 1 from the fixture store keeps user 2's
snippet, whose owner is not user 1. -/
theorem C6_snippets_deleted_with_owner_witness :
    sampleSnippet2 ∈ (deleteUser 1 sampleStore).snippets ∧
    sampleSnippet2.owner ≠ some 1 :=
  ⟨by decide, C6_snippets_deleted_with_owner sampleStore 1 sampleSnippet2 (by decide)⟩

/-- Claim C7: a snippet created with only the required `code` field gets
title `""`, linenos `false`, language `"python"` and style `"friendly"`;
a body without `code` fails validation and the create answers 400 without
touching the store. -/
theorem C7_defaults_and_required_code :
    (∀ (c : String) (store : Store) (u : Nat),
      (dispatch ⟨.POST, .snippetList, some u, { code := some c }⟩ store).1 =
        ⟨201, .snippetJson
          ⟨store.nextId, "", c, false, "python", "friendly", store.clock, some u,
            pygmentsHighlight c "python" "friendly"⟩⟩) ∧
    (∀ (p : Payload) (store : Store) (u : Nat), p.code = none →
        is_valid p = false ∧
        dispatch ⟨.POST, .snippetList, some u, p⟩ store = (⟨400, .empty⟩, store)) := by
  constructor
  · intro c store u
    rfl
  · intro p store u hc
    have hv : is_valid p = false := by simp [is_valid, hc]
    exact ⟨hv, by simp [dispatch, hv, IsAuthenticatedOrReadOnly.has_permission,
      SAFE_METHODS, snippetListAllowed]⟩

/-- Witness for C7: a minimal authenticated create on the empty store, and
a create with no `code` field rejected with 400. -/
theorem C7_defaults_and_required_code_witness :
    (dispatch ⟨.POST, .snippetList, some 1, { code := some "minimal code" }⟩
        emptyStore).1 =
      ⟨201, .snippetJson
        ⟨1, "", "minimal code", false, "python", "friendly", 0, some 1,
          pygmentsHighlight "minimal code" "python" "friendly"⟩⟩ ∧
    Payload.code { title := some "No Code" } = none ∧
    is_valid { title := some "No Code" } = false ∧
    dispatch ⟨.POST, .snippetList, some 1, { title := some "No Code" }⟩ emptyStore
      = (⟨400, .empty⟩, emptyStore) := by
  refine ⟨C7_defaults_and_required_code.1 "minimal code" emptyStore 1, rfl, ?_⟩
  exact C7_defaults_and_required_code.2 { title := some "No Code" } emptyStore 1 rfl

/-- Claim C5: in every reachable store the `highlighted` field equals the
pre-rendered HTML derived from the snippet's code, language and style
alone — so it cannot be set by a client, two snippets agreeing on those
three fields have equal `highlighted` values, and the highlight endpoint
returns exactly the stored value. -/
theorem C5_highlighted_derived_at_save :
    (∀ (ops : List Op) (s : Snippet), s ∈ (applyOps ops emptyStore).snippets →
        s.highlighted = pygmentsHighlight s.code s.language s.style) ∧
    (∀ (ops1 ops2 : List Op) (s t : Snippet),
        s ∈ (applyOps ops1 emptyStore).snippets →
        t ∈ (applyOps ops2 emptyStore).snippets →
        s.code = t.code → s.language = t.language → s.style = t.style →
        s.highlighted = t.highlighted) ∧
    (∀ (store : Store) (pk : Nat) (user : Option Nat) (s : Snippet),
        getSnippet store pk = some s →
        (dispatch ⟨.GET, .snippetHighlight pk, user, {}⟩ store).1 =
          ⟨200, .htmlText s.highlighted⟩) := by
  have hinv : ∀ (ops : List Op) (s : Snippet),
      s ∈ (applyOps ops emptyStore).snippets →
      s.highlighted = pygmentsHighlight s.code s.language s.style := by
    intro ops s hs
    exact highlight_inv_applyOps ops emptyStore (by intro t ht; cases ht) s hs
  refine ⟨hinv, ?_, ?_⟩
  · intro ops1 ops2 s t hs ht hc hl hst
    rw [hinv ops1 s hs, hinv ops2 t ht, hc, hl, hst]
  · intro store pk user s hg
    simp [dispatch, hg, readOnlyAllowed]

/-- Witness for C5: on the fixture history both stored snippets carry the
derived HTML, and the highlight endpoint returns it. -/
theorem C5_highlighted_derived_at_save_witness :
    (sampleSnippet1 ∈ sampleStore.snippets ∧
      sampleSnippet1.highlighted =
        pygmentsHighlight sampleSnippet1.code sampleSnippet1.language
          sampleSnippet1.style) ∧
    (getSnippet sampleStore 1 = some sampleSnippet1 ∧
      (dispatch ⟨.GET, .snippetHighlight 1, none, {}⟩ sampleStore).1 =
        ⟨200, .htmlText sampleSnippet1.highlighted⟩) :=
  ⟨⟨by decide,
    C5_highlighted_derived_at_save.1
      [.addUser 1, .addUser 2,
       .createSnippet { code := some "first" } 1,
       .createSnippet { code := some "second" } 2]
      sampleSnippet1 (by decide)⟩,
   ⟨by decide,
    C5_highlighted_derived_at_save.2.2 sampleStore 1 none sampleSnippet1
      (by decide)⟩⟩

/-- Claim C8: the `owner` key of a create body is ignored — two create
requests by the same authenticated user differing only in that key produce
identical responses and identical stores, and any snippet created carries
the requester as owner. -/
theorem C8_owner_field_read_only :
    ∀ (p : Payload) (o1 o2 : Option Nat) (u : Nat) (store : Store),
      dispatch ⟨.POST, .snippetList, some u, { p with owner := o1 }⟩ store =
        dispatch ⟨.POST, .snippetList, some u, { p with owner := o2 }⟩ store ∧
      (∀ s : Snippet,
        (dispatch ⟨.POST, .snippetList, some u,
            { p with owner := o1 }⟩ store).1.body = .snippetJson s →
          s.owner = some u) := by
  intro p o1 o2 u store
  by_cases hv : is_valid p = true
  · have h1 : is_valid { p with owner := o1 } = true := hv
    have h2 : is_valid { p with owner := o2 } = true := hv
    constructor
    · simp [dispatch, h1, h2, IsAuthenticatedOrReadOnly.has_permission,
        SAFE_METHODS, snippetListAllowed, snippetCreate, snippetFromPayload,
        snippetSave]
    · intro s heq
      simp [dispatch, h1, IsAuthenticatedOrReadOnly.has_permission,
        SAFE_METHODS, snippetListAllowed, snippetCreate, snippetFromPayload,
        snippetSave] at heq
      rw [← heq]
  · have h1 : is_valid { p with owner := o1 } = false := by
      simpa using hv
    have h2 : is_valid { p with owner := o2 } = false := by
      simpa using hv
    constructor
    · simp [dispatch, h1, h2]
    · intro s heq
      simp [dispatch, h1, IsAuthenticatedOrReadOnly.has_permission,
        SAFE_METHODS, snippetListAllowed] at heq

/-- Witness for C8: user 1 creating a snippet while claiming user 2 as
owner gets the same result as without the claim, and owns the record. -/
theorem C8_owner_field_read_only_witness :
    dispatch ⟨.POST, .snippetList, some 1,
        { code := some "x", owner := some 2 }⟩ emptyStore =
      dispatch ⟨.POST, .snippetList, some 1, { code := some "x" }⟩ emptyStore ∧
    (dispatch ⟨.POST, .snippetList, some 1,
        { code := some "x", owner := some 2 }⟩ emptyStore).1.body =
      .snippetJson
        ⟨1, "", "x", false, "python", "friendly", 0, some 1,
          pygmentsHighlight "x" "python" "friendly"⟩ ∧
    Snippet.owner
        ⟨1, "", "x", false, "python", "friendly", 0, some 1,
          pygmentsHighlight "x" "python" "friendly"⟩ = some 1 :=
  ⟨(C8_owner_field_read_only { code := some "x" } (some 2) none 1 emptyStore).1,
   by decide,
   (C8_owner_field_read_only { code := some "x" } (some 2) none 1 emptyStore).2
     _ (by decide)⟩

/-- Claim C9: in the authenticated stages an unauthenticated create is
rejected with 403 and leaves the store untouched, while unauthenticated
list and retrieve requests answer 200. -/
theorem C9_unauthenticated_read_only :
    ∀ (store : Store) (p : Payload),
      dispatch ⟨.POST, .snippetList, none, p⟩ store = (⟨403, .empty⟩, store) ∧
      (dispatch ⟨.GET, .snippetList, none, p⟩ store).1.status = 200 ∧
      (∀ (pk : Nat) (s : Snippet), getSnippet store pk = some s →
        (dispatch ⟨.GET, .snippetDetail pk, none, p⟩ store).1.status = 200) := by
  intro store p
  refine ⟨rfl, rfl, ?_⟩
  intro pk s hg
  simp [dispatch, hg, IsAuthenticatedOrReadOnly.has_permission, SAFE_METHODS,
    snippetDetailAllowed, IsOwnerOrReadOnly.has_object_permission,
    snippetDetailHandler]

/-- Witness for C9: anonymous create on the fixture store answers 403 and
changes nothing; anonymous list and retrieve answer 200. -/
theorem C9_unauthenticated_read_only_witness :
    dispatch ⟨.POST, .snippetList, none, { code := some "new" }⟩ sampleStore =
      (⟨403, .empty⟩, sampleStore) ∧
    (dispatch ⟨.GET, .snippetList, none, {}⟩ sampleStore).1.status = 200 ∧
    getSnippet sampleStore 1 = some sampleSnippet1 ∧
    (dispatch ⟨.GET, .snippetDetail 1, none, {}⟩ sampleStore).1.status = 200 :=
  ⟨(C9_unauthenticated_read_only sampleStore { code := some "new" }).1,
   (C9_unauthenticated_read_only sampleStore {}).2.1,
   by decide,
   (C9_unauthenticated_read_only sampleStore {}).2.2 1 sampleSnippet1 (by decide)⟩

/-- Claim C10: every rejected mutation is atomic — whenever a request is
answered 400, 403 or 405, the persisted store (every record and every
field) is exactly what it was before the request. -/
theorem C10_rejected_requests_atomic :
    ∀ (req : Request) (store : Store),
      ((dispatch req store).1.status = 400 ∨ (dispatch req store).1.status = 403 ∨
        (dispatch req store).1.status = 405) →
      (dispatch req store).2 = store := by
  intro req store h
  rcases hd : dispatch req store with ⟨resp, store2⟩
  rw [hd] at h
  simp only at h ⊢
  rcases req with ⟨m, tgt, u, p⟩
  cases tgt <;>
    (simp only [dispatch, snippetDetailHandler] at hd
     repeat' split at hd
     all_goals (cases hd; first | rfl | simp at h))

/-- Witness for C10: an anonymous create on the fixture store is refused
with 403 and the store is unchanged. -/
theorem C10_rejected_requests_atomic_witness :
    (dispatch ⟨.POST, .snippetList, none, { code := some "x" }⟩
        sampleStore).1.status = 403 ∧
    (dispatch ⟨.POST, .snippetList, none, { code := some "x" }⟩
        sampleStore).2 = sampleStore :=
  ⟨by decide,
   C10_rejected_requests_atomic
     ⟨.POST, .snippetList, none, { code := some "x" }⟩ sampleStore
     (Or.inr (Or.inl (by decide)))⟩

/-- Counterexample to C2 as stated: an anonymous DELETE on the snippet
list endpoint uses a method the endpoint does not support, yet it is
answered 403, not 405 — the view-level permission check runs before the
handler is resolved. -/
theorem C2_error_statuses_counterexample :
    Method.DELETE ∉ snippetListAllowed ∧
    (dispatch ⟨.DELETE, .snippetList, none, {}⟩ emptyStore).1.status = 403 := by
  decide

/-- Claim C2 (amended): field-validation failures yield 400 once the
permission, method and object checks pass; a missing record yields 404
once view-level permissions pass; a mutating request denied by the
permission checks yields 403 — even when its method is also unsupported;
an unsupported method yields 405 provided the request passes the
view-level permission checks. -/
theorem C2_error_statuses_amended :
    (∀ (store : Store) (u : Nat) (p : Payload),
        is_valid p = false →
        (dispatch ⟨.POST, .snippetList, some u, p⟩ store).1.status = 400) ∧
    (∀ (store : Store) (u : Nat) (p : Payload) (pk : Nat) (s : Snippet),
        getSnippet store pk = some s → s.owner = some u → is_valid p = false →
        (dispatch ⟨.PUT, .snippetDetail pk, some u, p⟩ store).1.status = 400) ∧
    (∀ (store : Store) (u : Nat) (p : Payload) (pk : Nat) (m : Method),
        m ∈ snippetDetailAllowed → m ≠ .OPTIONS → getSnippet store pk = none →
        (dispatch ⟨m, .snippetDetail pk, some u, p⟩ store).1.status = 404) ∧
    (∀ (store : Store) (p : Payload) (m : Method),
        m ∉ SAFE_METHODS →
        (dispatch ⟨m, .snippetList, none, p⟩ store).1.status = 403) ∧
    (∀ (store : Store) (u : Nat) (p : Payload) (m : Method),
        m ∉ snippetListAllowed →
        (dispatch ⟨m, .snippetList, some u, p⟩ store).1.status = 405) ∧
    (∀ (store : Store) (u : Nat) (p : Payload) (pk : Nat) (m : Method),
        m ∉ snippetDetailAllowed →
        (dispatch ⟨m, .snippetDetail pk, some u, p⟩ store).1.status = 405) := by
  refine ⟨?_, ?_, ?_, ?_, ?_, ?_⟩
  · intro store u p hv
    simp [dispatch, hv, IsAuthenticatedOrReadOnly.has_permission, SAFE_METHODS,
      snippetListAllowed]
  · intro store u p pk s hg hown hv
    have hobj : IsOwnerOrReadOnly.has_object_permission .PUT (some u) s = true := by
      simp [IsOwnerOrReadOnly.has_object_permission, SAFE_METHODS, ownerEqUser, hown]
    simp [dispatch, hg, hobj, hv, IsAuthenticatedOrReadOnly.has_permission,
      SAFE_METHODS, snippetDetailAllowed, snippetDetailHandler]
  · intro store u p pk m hm hne hg
    simp [dispatch, hm, hne, hg, IsAuthenticatedOrReadOnly.has_permission]
  · intro store p m hm
    simp [dispatch, IsAuthenticatedOrReadOnly.has_permission, hm]
  · intro store u p m hm
    simp [dispatch, hm, IsAuthenticatedOrReadOnly.has_permission]
  · intro store u p pk m hm
    simp [dispatch, hm, IsAuthenticatedOrReadOnly.has_permission]

/-- Witness for the amended C2: each status clause at a concrete request
on the fixture store. -/
theorem C2_error_statuses_amended_witness :
    (dispatch ⟨.POST, .snippetList, some 1,
        { title := some "No Code Field" }⟩ sampleStore).1.status = 400 ∧
    (dispatch ⟨.PUT, .snippetDetail 1, some 1, {}⟩ sampleStore).1.status = 400 ∧
    (dispatch ⟨.GET, .snippetDetail 9999, some 1, {}⟩ sampleStore).1.status = 404 ∧
    (dispatch ⟨.DELETE, .snippetList, none, {}⟩ sampleStore).1.status = 403 ∧
    (dispatch ⟨.DELETE, .snippetList, some 1, {}⟩ sampleStore).1.status = 405 ∧
    (dispatch ⟨.POST, .snippetDetail 1, some 1, {}⟩ sampleStore).1.status = 405 :=
  ⟨C2_error_statuses_amended.1 sampleStore 1 { title := some "No Code Field" } rfl,
   C2_error_statuses_amended.2.1 sampleStore 1 {} 1 sampleSnippet1
     (by decide) (by decide) rfl,
   C2_error_statuses_amended.2.2.1 sampleStore 1 {} 9999 .GET
     (by decide) (by decide) (by decide),
   C2_error_statuses_amended.2.2.2.1 sampleStore {} .DELETE (by decide),
   C2_error_statuses_amended.2.2.2.2.1 sampleStore 1 {} .DELETE (by decide),
   C2_error_statuses_amended.2.2.2.2.2 sampleStore 1 {} 1 .POST (by decide)⟩

/-- Counterexample to C4 as stated: the user endpoints never accept
create, update or delete — even an authenticated client's POST, PUT and
DELETE are answered 405. -/
theorem C4_user_endpoints_read_only_counterexample :
    (dispatch ⟨.POST, .userList, some 1, { code := some "u" }⟩ emptyStore).1.status
        = 405 ∧
    (dispatch ⟨.PUT, .userDetail 1, some 1, {}⟩ emptyStore).1.status = 405 ∧
    (dispatch ⟨.DELETE, .userDetail 1, some 1, {}⟩ emptyStore).1.status = 405 := by
  decide

/-- Claim C4 (amended): the HTTP surface exposes CRUD over snippets, but
the user endpoints are read-only — list and retrieve answer 200 while
every create, update or delete on them answers 405 for every client. -/
theorem C4_user_endpoints_read_only_amended :
    (∀ (store : Store) (u : Nat) (c : String),
        (dispatch ⟨.POST, .snippetList, some u, { code := some c }⟩ store).1.status
          = 201) ∧
    (∀ (store : Store) (u : Option Nat) (p : Payload) (pk : Nat),
        (dispatch ⟨.POST, .userList, u, p⟩ store).1.status = 405 ∧
        (dispatch ⟨.PUT, .userDetail pk, u, p⟩ store).1.status = 405 ∧
        (dispatch ⟨.PATCH, .userDetail pk, u, p⟩ store).1.status = 405 ∧
        (dispatch ⟨.DELETE, .userDetail pk, u, p⟩ store).1.status = 405) ∧
    (∀ (store : Store) (u : Option Nat) (pk : Nat),
        (dispatch ⟨.GET, .userList, u, {}⟩ store).1.status = 200 ∧
        (pk ∈ store.users →
          (dispatch ⟨.GET, .userDetail pk, u, {}⟩ store).1.status = 200)) := by
  refine ⟨fun store u c => rfl, fun store u p pk => ⟨rfl, rfl, rfl, rfl⟩,
    fun store u pk => ⟨rfl, fun hpk => ?_⟩⟩
  simp [dispatch, hpk, readOnlyAllowed]

/-- Witness for the amended C4: snippet create succeeds, user mutations
answer 405, user reads answer 200 on the fixture store. -/
theorem C4_user_endpoints_read_only_amended_witness :
    (dispatch ⟨.POST, .snippetList, some 1,
        { code := some "new" }⟩ sampleStore).1.status = 201 ∧
    (dispatch ⟨.POST, .userList, some 1, {}⟩ sampleStore).1.status = 405 ∧
    1 ∈ sampleStore.users ∧
    (dispatch ⟨.GET, .userDetail 1, some 2, {}⟩ sampleStore).1.status = 200 :=
  ⟨C4_user_endpoints_read_only_amended.1 sampleStore 1 "new",
   (C4_user_endpoints_read_only_amended.2.1 sampleStore (some 1) {} 1).1,
   by decide,
   (C4_user_endpoints_read_only_amended.2.2 sampleStore (some 2) 1).2 (by decide)⟩

end DrfTutorial
